import Mathlib

/-!
Verification of `src/traffic_map.py` (a Streamlit demo that overlays
simulated traffic-accident hotspots on a map of Taichung, geocodes a
start/end address pair, draws a straight line between them and reports
how many hotspots fall inside a padded bounding box around that line).

Shallow embedding conventions:
* Python floats are modelled as exact rationals `ℚ` (the program only
  adds, compares and takes min/max of coordinates; no rounding behaviour
  is relevant to any claim).
* Python ints (the incident counts) are `ℤ`.
* `random.uniform(-0.05, 0.05)` and `random.choices([1, 3, 6], ...)` are
  modelled by an explicit stream of draws `Nat → Draw`; the uniform draws
  carry the hypothesis `-0.05 ≤ u ≤ 0.05` where a claim needs it, and the
  weighted choice is an index into the literal list `[1, 3, 6]` (weights
  affect only the distribution, not the support).
* The Nominatim geocoder is an oracle `String → GeoResult` covering the
  three observable outcomes of `geolocator.geocode`: a location, `None`,
  or a `GeocoderTimedOut` exception.
* The Streamlit calls (`st.error`, `st.warning`, markers, polyline) are
  modelled by a `RenderOutput` record describing what the run-button
  handler adds to the page; `@st.cache_data` is modelled by explicit
  cache state threaded through `script_run`.
-/

/-- A row of the `df_accidents` table: `['lat', 'lon', 'count', 'color', 'risk']`. -/
structure Point where
  lat : ℚ
  lon : ℚ
  count : ℤ
  color : String
  risk : String
deriving DecidableEq, Repr

/-- `base_lat, base_lon = 24.1477, 120.6733` (near Taichung station). -/
def base_lat : ℚ := 24.1477

/-- See `base_lat`. -/
def base_lon : ℚ := 120.6733

/-- The `if count >= 5 / elif count >= 2 / else` conditional of `load_data`,
returning the `(color, risk)` pair it assigns. -/
def classify (count : ℤ) : String × String :=
  if 5 ≤ count then ("red", "高危險 (5次以上)")
  else if 2 ≤ count then ("orange", "注意 (2-4次)")
  else ("green", "曾經發生 (1次)")

/-- The population of `random.choices([1, 3, 6], weights=[0.5, 0.3, 0.2])`. -/
def countChoices : List ℤ := [1, 3, 6]

/-- One iteration's random draws: the two `random.uniform(-0.05, 0.05)`
offsets and the index drawn by `random.choices`. -/
structure Draw where
  uLat : ℚ
  uLon : ℚ
  choice : Fin 3

/-- One iteration of the loop body of `load_data`: offsets the base
coordinates by the uniform draws, picks the count from `[1, 3, 6]`, and
classifies it. -/
def genPoint (d : Draw) : Point :=
  let count := countChoices.get (Fin.cast (by decide) d.choice)
  { lat := base_lat + d.uLat
    lon := base_lon + d.uLon
    count := count
    color := (classify count).1
    risk := (classify count).2 }

/-- `load_data`: 100 independently generated points (`for _ in range(100)`). -/
def load_data (rand : Nat → Draw) : List Point :=
  (List.range 100).map (fun i => genPoint (rand i))

/-- Inclusive-bound containment, as pandas `Series.between(lo, hi)`. -/
def between (x lo hi : ℚ) : Bool :=
  decide (lo ≤ x) && decide (x ≤ hi)

/-- The bounding-box filter of the run-button handler:
`df[(df.lat.between(min_lat-0.01, max_lat+0.01)) & (df.lon.between(min_lon-0.01, max_lon+0.01))]`
where the min/max are taken over the two geocoded coordinate pairs. -/
def nearby_accidents (df : List Point) (start_coords end_coords : ℚ × ℚ) : List Point :=
  let min_lat := min start_coords.1 end_coords.1
  let max_lat := max start_coords.1 end_coords.1
  let min_lon := min start_coords.2 end_coords.2
  let max_lon := max start_coords.2 end_coords.2
  df.filter (fun p =>
    between p.lat (min_lat - 0.01) (max_lat + 0.01) &&
    between p.lon (min_lon - 0.01) (max_lon + 0.01))

/-- `high_risk_count = len(nearby_accidents[nearby_accidents['count'] >= 5])`. -/
def high_risk_count (nearby : List Point) : Nat :=
  (nearby.filter (fun p => decide (5 ≤ p.count))).length

/-- The observable outcomes of one `geolocator.geocode(query)` call. -/
inductive GeoResult where
  | timeout
  | notFound
  | found (lat lon : ℚ)
deriving DecidableEq, Repr

/-- `get_coordinates(address)`: prefixes the address with the city name,
calls the geocoder once, returns its coordinates or `None` on a missing
result or a `GeocoderTimedOut`.  The second component is the log of
geocoder queries issued (appended to `log`), used to express that a
failed call is never retried. -/
def get_coordinates (geocode : String → GeoResult) (address : String)
    (log : List String) : Option (ℚ × ℚ) × List String :=
  let query := "台中市 " ++ address
  (match geocode query with
   | .found lat lon => some (lat, lon)
   | .notFound => none
   | .timeout => none,
   log ++ [query])

/-- What the run-button handler adds to the rendered page. -/
structure RenderOutput where
  /-- The start/end `folium.Marker`s placed (in order). -/
  markers : List (ℚ × ℚ)
  /-- The `locations` list of the `folium.PolyLine`, when one is drawn. -/
  polyline : Option (List (ℚ × ℚ))
  /-- The `st.warning` report: `(len(nearby_accidents), high_risk_count)`,
  when shown. -/
  report : Option (Nat × Nat)
  /-- Whether the `st.error` message is displayed. -/
  errorShown : Bool
  /-- Whether the `st.success` message is displayed. -/
  successShown : Bool
deriving DecidableEq, Repr

/-- The body of `if run_btn and start_location and end_location:`:
geocodes both addresses, and either draws markers, the straight polyline
and (when the filtered set is non-empty) the nearby-accident warning, or
shows the error message and draws nothing.  Also returns the geocoder
query log. -/
def run_btn_handler (geocode : String → GeoResult) (df : List Point)
    (start_location end_location : String) : RenderOutput × List String :=
  let (start_coords, log1) := get_coordinates geocode start_location []
  let (end_coords, log2) := get_coordinates geocode end_location log1
  match start_coords, end_coords with
  | some s, some e =>
      let nearby := nearby_accidents df s e
      ({ markers := [s, e]
         polyline := some [s, e]
         report := if nearby.isEmpty then none
                   else some (nearby.length, high_risk_count nearby)
         errorShown := false
         successShown := true }, log2)
  | _, _ =>
      ({ markers := []
         polyline := none
         report := none
         errorShown := true
         successShown := false }, log2)

/-- One execution of the script with `@st.cache_data` state: `load_data()`
returns the cached table when one exists and otherwise generates and
caches a fresh one; the handler then runs on that table.  Returns the
new cache, the table the run operated on, and the handler's output. -/
def script_run (cache : Option (List Point)) (rand : Nat → Draw)
    (geocode : String → GeoResult) (start_location end_location : String) :
    Option (List Point) × List Point × RenderOutput :=
  let df_accidents := match cache with
    | some d => d
    | none => load_data rand
  (some df_accidents, df_accidents,
   (run_btn_handler geocode df_accidents start_location end_location).1)

/-! Concrete inputs used by witnesses and counterexamples. -/

/-- The all-zero draw: both uniform offsets `0`, choice index `0` (count 1). -/
def draw0 : Draw := ⟨0, 0, 0⟩

/-- A random stream that always returns `draw0`. -/
def rand0 : Nat → Draw := fun _ => draw0

/-- A geocoder that always times out. -/
def geoNone : String → GeoResult := fun _ => .timeout

/-- A geocoder that resolves every address to the fixed point `(24.2, 120.65)`. -/
def geoFound : String → GeoResult := fun _ => .found 24.2 120.65

/-- A hotspot far outside any bounding box near Taichung. -/
def farPoint : Point :=
  { lat := 0, lon := 0, count := 6, color := "red", risk := "高危險 (5次以上)" }

/-- A hotspot at exactly the point `geoFound` resolves to. -/
def nearPoint : Point :=
  { lat := 24.2, lon := 120.65, count := 6, color := "red", risk := "高危險 (5次以上)" }

/-- Membership in the filtered table, unfolded to the box bounds. -/
theorem mem_nearby_accidents (df : List Point) (s e : ℚ × ℚ) (p : Point) :
    p ∈ nearby_accidents df s e ↔
      p ∈ df ∧
      (min s.1 e.1 - 0.01 ≤ p.lat ∧ p.lat ≤ max s.1 e.1 + 0.01) ∧
      (min s.2 e.2 - 0.01 ≤ p.lon ∧ p.lon ≤ max s.2 e.2 + 0.01) := by
  simp [nearby_accidents, between, List.mem_filter, and_assoc]

/-- C2: a point is retained by the proximity filter iff it is in the table,
its latitude lies in `[min(start.lat, end.lat) - 0.01, max(start.lat, end.lat) + 0.01]`
and its longitude lies in `[min(start.lon, end.lon) - 0.01, max(start.lon, end.lon) + 0.01]`
(bounds inclusive). -/
theorem nearby_accidents_mem_iff (df : List Point) (s e : ℚ × ℚ) (p : Point) :
    p ∈ nearby_accidents df s e ↔
      p ∈ df ∧
      (min s.1 e.1 - 0.01 ≤ p.lat ∧ p.lat ≤ max s.1 e.1 + 0.01) ∧
      (min s.2 e.2 - 0.01 ≤ p.lon ∧ p.lon ≤ max s.2 e.2 + 0.01) :=
  mem_nearby_accidents df s e p

/-- C9: the filtered nearby set is a sublist (hence a subset) of the table,
and the reported high-risk count is at most the number of nearby points. -/
theorem nearby_subset_and_high_risk_le (df : List Point) (s e : ℚ × ℚ) :
    (nearby_accidents df s e).Sublist df ∧
      high_risk_count (nearby_accidents df s e) ≤ (nearby_accidents df s e).length :=
  ⟨List.filter_sublist df, List.length_filter_le _ _⟩

/-- C10: the `else` branch of the classification covers the whole range
`count < 2`, so any count of `1`, `0` or below gets color `green` and the
label stating the incident occurred once. -/
theorem classify_low_bucket (count : ℤ) (h : count < 2) :
    classify count = ("green", "曾經發生 (1次)") := by
  unfold classify
  rw [if_neg (by omega), if_neg (by omega)]

/-- Witness for C10 at `count = 0`. -/
theorem classify_low_bucket_witness :
    (0 : ℤ) < 2 ∧ classify 0 = ("green", "曾經發生 (1次)") :=
  ⟨by decide, classify_low_bucket 0 (by decide)⟩

/-- Any row of the generated table comes from one of the 100 loop iterations. -/
theorem mem_load_data {rand : Nat → Draw} {p : Point} (hp : p ∈ load_data rand) :
    ∃ i, i < 100 ∧ p = genPoint (rand i) := by
  simp only [load_data, List.mem_map, List.mem_range] at hp
  obtain ⟨i, hi, h⟩ := hp
  exact ⟨i, hi, h.symm⟩

/-- The point generated from the all-zero draw is in the table generated
from the all-`draw0` stream. -/
theorem genPoint_draw0_mem : genPoint draw0 ∈ load_data rand0 :=
  List.mem_map.mpr ⟨0, List.mem_range.mpr (by decide), rfl⟩

/-- C1: every generated point's classification lands in exactly one of the
three buckets — `count ≥ 5` gives color `red` with the high-risk label,
`2 ≤ count ≤ 4` gives `orange` with the medium-risk label, `count = 1`
gives `green` with the low-risk label — and exactly one of the three
count conditions holds. -/
theorem load_data_classification (rand : Nat → Draw) (p : Point)
    (hp : p ∈ load_data rand) :
    ((5 ≤ p.count ∧ p.color = "red" ∧ p.risk = "高危險 (5次以上)") ∨
     ((2 ≤ p.count ∧ p.count ≤ 4) ∧ p.color = "orange" ∧ p.risk = "注意 (2-4次)") ∨
     (p.count = 1 ∧ p.color = "green" ∧ p.risk = "曾經發生 (1次)")) ∧
    ([decide (5 ≤ p.count), decide (2 ≤ p.count ∧ p.count ≤ 4),
      decide (p.count = 1)].count true = 1) := by
  obtain ⟨i, -, rfl⟩ := mem_load_data hp
  rcases h : rand i with ⟨u, v, c⟩
  fin_cases c <;>
    simp [genPoint, countChoices, classify, List.count_cons]

/-- Witness for C1 at the concrete point generated from `draw0` (count 1). -/
theorem load_data_classification_witness :
    genPoint draw0 ∈ load_data rand0 ∧
    (((5 ≤ (genPoint draw0).count ∧ (genPoint draw0).color = "red" ∧
        (genPoint draw0).risk = "高危險 (5次以上)") ∨
      ((2 ≤ (genPoint draw0).count ∧ (genPoint draw0).count ≤ 4) ∧
        (genPoint draw0).color = "orange" ∧ (genPoint draw0).risk = "注意 (2-4次)") ∨
      ((genPoint draw0).count = 1 ∧ (genPoint draw0).color = "green" ∧
        (genPoint draw0).risk = "曾經發生 (1次)")) ∧
     ([decide (5 ≤ (genPoint draw0).count),
       decide (2 ≤ (genPoint draw0).count ∧ (genPoint draw0).count ≤ 4),
       decide ((genPoint draw0).count = 1)].count true = 1)) :=
  ⟨genPoint_draw0_mem,
   load_data_classification rand0 (genPoint draw0) genPoint_draw0_mem⟩

/-- C8: every generated incident count is `1`, `3` or `6`; hence an orange
point has count exactly `3` and a red point count exactly `6`. -/
theorem load_data_counts (rand : Nat → Draw) (p : Point)
    (hp : p ∈ load_data rand) :
    (p.count = 1 ∨ p.count = 3 ∨ p.count = 6) ∧
    (p.color = "orange" → p.count = 3) ∧
    (p.color = "red" → p.count = 6) := by
  obtain ⟨i, -, rfl⟩ := mem_load_data hp
  rcases h : rand i with ⟨u, v, c⟩
  fin_cases c <;> simp [genPoint, countChoices, classify]

/-- Witness for C8 at the concrete point generated from `draw0`. -/
theorem load_data_counts_witness :
    genPoint draw0 ∈ load_data rand0 ∧
    ((genPoint draw0).count = 1 ∨ (genPoint draw0).count = 3 ∨
      (genPoint draw0).count = 6) :=
  ⟨genPoint_draw0_mem,
   (load_data_counts rand0 (genPoint draw0) genPoint_draw0_mem).1⟩

/-- C6: with every `random.uniform(-0.05, 0.05)` draw inside its range,
every generated point's latitude lies in `[24.1477 - 0.05, 24.1477 + 0.05]`
and its longitude in `[120.6733 - 0.05, 120.6733 + 0.05]`; moreover a run
starting with an empty cache creates the table exactly once (it caches
`load_data rand`, and every later run in the page load gets that same
table back, whatever its own random stream would have generated). -/
theorem load_data_ranges_and_created_once (rand : Nat → Draw)
    (h : ∀ i, i < 100 →
        -0.05 ≤ (rand i).uLat ∧ (rand i).uLat ≤ 0.05 ∧
        -0.05 ≤ (rand i).uLon ∧ (rand i).uLon ≤ 0.05)
    (p : Point) (hp : p ∈ load_data rand)
    (geocode : String → GeoResult) (a b : String)
    (rand₂ : Nat → Draw) (geocode₂ : String → GeoResult) (a₂ b₂ : String) :
    (24.1477 - 0.05 ≤ p.lat ∧ p.lat ≤ 24.1477 + 0.05 ∧
     120.6733 - 0.05 ≤ p.lon ∧ p.lon ≤ 120.6733 + 0.05) ∧
    ((script_run none rand geocode a b).2.1 = load_data rand ∧
     (script_run none rand geocode a b).1 = some (load_data rand) ∧
     (script_run (script_run none rand geocode a b).1 rand₂ geocode₂ a₂ b₂).2.1
        = load_data rand) := by
  obtain ⟨i, hi, rfl⟩ := mem_load_data hp
  obtain ⟨h1, h2, h3, h4⟩ := h i hi
  refine ⟨?_, rfl, rfl, rfl⟩
  simp only [genPoint, base_lat, base_lon]
  refine ⟨by linarith, by linarith, by linarith, by linarith⟩

/-- Witness for C6: the all-zero stream satisfies the uniform bounds, and
the conclusions hold at the point generated from `draw0` with the
always-timeout geocoder. -/
theorem load_data_ranges_witness :
    (24.1477 - 0.05 ≤ (genPoint draw0).lat ∧
     (genPoint draw0).lat ≤ 24.1477 + 0.05 ∧
     120.6733 - 0.05 ≤ (genPoint draw0).lon ∧
     (genPoint draw0).lon ≤ 120.6733 + 0.05) ∧
    ((script_run none rand0 geoNone "a" "b").2.1 = load_data rand0 ∧
     (script_run none rand0 geoNone "a" "b").1 = some (load_data rand0) ∧
     (script_run (script_run none rand0 geoNone "a" "b").1 rand0 geoNone "a" "b").2.1
        = load_data rand0) :=
  load_data_ranges_and_created_once rand0
    (fun _ _ => ⟨by norm_num [rand0, draw0], by norm_num [rand0, draw0],
                 by norm_num [rand0, draw0], by norm_num [rand0, draw0]⟩)
    (genPoint draw0) genPoint_draw0_mem geoNone "a" "b" rand0 geoNone "a" "b"

/-- C7: after any script run the cache holds exactly the table that run
used; a run given a cached table returns it unchanged regardless of its
random stream; and any later run operates on the same table and leaves
both the table and the cache unchanged. -/
theorem script_run_table_frame (d : List Point) (cache : Option (List Point))
    (rand rand₂ : Nat → Draw) (geocode geocode₂ : String → GeoResult)
    (a b a₂ b₂ : String) :
    (script_run cache rand geocode a b).1 =
      some (script_run cache rand geocode a b).2.1 ∧
    (script_run (some d) rand geocode a b).2.1 = d ∧
    (script_run (script_run cache rand geocode a b).1 rand₂ geocode₂ a₂ b₂).2.1
        = (script_run cache rand geocode a b).2.1 ∧
    (script_run (script_run cache rand geocode a b).1 rand₂ geocode₂ a₂ b₂).1
        = (script_run cache rand geocode a b).1 := by
  rcases cache with _ | d' <;> exact ⟨rfl, rfl, rfl, rfl⟩

/-- When both geocoding calls succeed, the handler draws the two markers,
the two-point polyline, and the warning exactly when the filtered set is
non-empty; the geocoder was called once per address. -/
theorem run_btn_handler_success (geocode : String → GeoResult)
    (df : List Point) (a b : String) (s e : ℚ × ℚ)
    (hs : (get_coordinates geocode a []).1 = some s)
    (he : (get_coordinates geocode b []).1 = some e) :
    run_btn_handler geocode df a b =
      ({ markers := [s, e]
         polyline := some [s, e]
         report := if (nearby_accidents df s e).isEmpty then none
                   else some ((nearby_accidents df s e).length,
                              high_risk_count (nearby_accidents df s e))
         errorShown := false
         successShown := true },
       ["台中市 " ++ a, "台中市 " ++ b]) := by
  simp only [get_coordinates] at hs he
  cases hga : geocode ("台中市 " ++ a) with
  | timeout => rw [hga] at hs; exact absurd hs (by simp)
  | notFound => rw [hga] at hs; exact absurd hs (by simp)
  | found la lo =>
    cases hgb : geocode ("台中市 " ++ b) with
    | timeout => rw [hgb] at he; exact absurd he (by simp)
    | notFound => rw [hgb] at he; exact absurd he (by simp)
    | found lb lo' =>
      rw [hga] at hs
      rw [hgb] at he
      simp only [Option.some.injEq] at hs he
      subst hs
      subst he
      simp [run_btn_handler, get_coordinates, hga, hgb]

/-- When either geocoding call fails, the handler shows only the error
message; both geocoder calls were still made exactly once. -/
theorem run_btn_handler_failure (geocode : String → GeoResult)
    (df : List Point) (a b : String)
    (h : (get_coordinates geocode a []).1 = none ∨
         (get_coordinates geocode b []).1 = none) :
    run_btn_handler geocode df a b =
      ({ markers := []
         polyline := none
         report := none
         errorShown := true
         successShown := false },
       ["台中市 " ++ a, "台中市 " ++ b]) := by
  simp only [get_coordinates] at h
  cases hga : geocode ("台中市 " ++ a) <;>
    cases hgb : geocode ("台中市 " ++ b) <;>
    simp [hga, hgb] at h ⊢ <;>
    simp [run_btn_handler, get_coordinates, hga, hgb]

/-- The far-away hotspot is filtered out: the box around the degenerate
segment at `(24.2, 120.65)` contains no point of `[farPoint]`. -/
theorem nearby_far_empty :
    nearby_accidents [farPoint] (24.2, 120.65) (24.2, 120.65) = [] := by
  rw [List.eq_nil_iff_forall_not_mem]
  intro p hp
  rw [mem_nearby_accidents] at hp
  obtain ⟨hmem, hlat, -⟩ := hp
  rw [List.mem_singleton] at hmem
  subst hmem
  norm_num [farPoint, min_self] at hlat

/-- The hotspot at the geocoded point itself survives the filter. -/
theorem nearPoint_mem_nearby :
    nearPoint ∈ nearby_accidents [nearPoint] (24.2, 120.65) (24.2, 120.65) := by
  rw [mem_nearby_accidents]
  refine ⟨List.mem_singleton_self _, ?_, ?_⟩ <;>
    norm_num [nearPoint, min_self, max_self]

/-- C3 counterexample: both addresses geocode successfully, yet because no
hotspot falls inside the padded bounding box the handler shows no report
at all (the code guards the warning with `if not nearby_accidents.empty`),
instead of reporting a count of zero. -/
theorem no_report_when_no_nearby_hotspot :
    (get_coordinates geoFound "台中火車站" []).1 = some (24.2, 120.65) ∧
    (get_coordinates geoFound "逢甲大學" []).1 = some (24.2, 120.65) ∧
    nearby_accidents [farPoint] (24.2, 120.65) (24.2, 120.65) = [] ∧
    (run_btn_handler geoFound [farPoint] "台中火車站" "逢甲大學").1.report = none := by
  refine ⟨rfl, rfl, nearby_far_empty, ?_⟩
  rw [run_btn_handler_success geoFound [farPoint] "台中火車站" "逢甲大學"
        (24.2, 120.65) (24.2, 120.65) rfl rfl]
  simp [nearby_far_empty]

/-- C3 (amended): when both addresses geocode successfully, the handler
reports the number of nearby hotspots together with the number of
high-risk ones whenever at least one hotspot falls inside the padded
bounding box; when none does, no report is shown. -/
theorem report_iff_nearby_nonempty (geocode : String → GeoResult)
    (df : List Point) (a b : String) (s e : ℚ × ℚ)
    (hs : (get_coordinates geocode a []).1 = some s)
    (he : (get_coordinates geocode b []).1 = some e) :
    (nearby_accidents df s e ≠ [] →
      (run_btn_handler geocode df a b).1.report =
        some ((nearby_accidents df s e).length,
              high_risk_count (nearby_accidents df s e))) ∧
    (nearby_accidents df s e = [] →
      (run_btn_handler geocode df a b).1.report = none) := by
  rw [run_btn_handler_success geocode df a b s e hs he]
  constructor
  · intro h
    simp [List.isEmpty_iff, h]
  · intro h
    simp [List.isEmpty_iff, h]

/-- Witness for amended C3: a single hotspot at the geocoded point is
reported as one nearby hotspot, one of them high-risk. -/
theorem report_iff_nearby_nonempty_witness :
    (run_btn_handler geoFound [nearPoint] "台中火車站" "逢甲大學").1.report =
      some ((nearby_accidents [nearPoint] (24.2, 120.65) (24.2, 120.65)).length,
            high_risk_count (nearby_accidents [nearPoint] (24.2, 120.65) (24.2, 120.65))) :=
  (report_iff_nearby_nonempty geoFound [nearPoint] "台中火車站" "逢甲大學"
      (24.2, 120.65) (24.2, 120.65) rfl rfl).1
    (List.ne_nil_of_mem nearPoint_mem_nearby)

/-- C4: if geocoding fails (timeout) or returns nothing for either
address, the handler shows the error message, draws no start/end markers,
no polyline, and no nearby-hotspot report; each address's geocoding call
is made exactly once (no retry). -/
theorem geocode_failure_shows_error_only (geocode : String → GeoResult)
    (df : List Point) (a b : String)
    (h : (get_coordinates geocode a []).1 = none ∨
         (get_coordinates geocode b []).1 = none) :
    (run_btn_handler geocode df a b).1.errorShown = true ∧
    (run_btn_handler geocode df a b).1.markers = [] ∧
    (run_btn_handler geocode df a b).1.polyline = none ∧
    (run_btn_handler geocode df a b).1.report = none ∧
    (run_btn_handler geocode df a b).2 = ["台中市 " ++ a, "台中市 " ++ b] := by
  rw [run_btn_handler_failure geocode df a b h]
  exact ⟨rfl, rfl, rfl, rfl, rfl⟩

/-- Witness for C4 with the always-timeout geocoder. -/
theorem geocode_failure_witness :
    (get_coordinates geoNone "台中火車站" []).1 = none ∧
    (run_btn_handler geoNone [] "台中火車站" "逢甲大學").1.errorShown = true ∧
    (run_btn_handler geoNone [] "台中火車站" "逢甲大學").1.markers = [] ∧
    (run_btn_handler geoNone [] "台中火車站" "逢甲大學").1.polyline = none ∧
    (run_btn_handler geoNone [] "台中火車站" "逢甲大學").1.report = none ∧
    (run_btn_handler geoNone [] "台中火車站" "逢甲大學").2 =
      ["台中市 台中火車站", "台中市 逢甲大學"] :=
  ⟨rfl, geocode_failure_shows_error_only geoNone [] "台中火車站" "逢甲大學" (Or.inl rfl)⟩

/-- C5: for successfully geocoded start and end coordinates, the drawn
polyline's location list is exactly the two points start, end — a
straight segment, with no routing computation. -/
theorem polyline_is_straight_segment (geocode : String → GeoResult)
    (df : List Point) (a b : String) (s e : ℚ × ℚ)
    (hs : (get_coordinates geocode a []).1 = some s)
    (he : (get_coordinates geocode b []).1 = some e) :
    (run_btn_handler geocode df a b).1.polyline = some [s, e] := by
  rw [run_btn_handler_success geocode df a b s e hs he]

/-- Witness for C5 with the constant geocoder. -/
theorem polyline_is_straight_segment_witness :
    (run_btn_handler geoFound [] "台中火車站" "逢甲大學").1.polyline =
      some [(24.2, 120.65), (24.2, 120.65)] :=
  polyline_is_straight_segment geoFound [] "台中火車站" "逢甲大學"
    (24.2, 120.65) (24.2, 120.65) rfl rfl
